import Mathlib

/-!
Verification of the parallel job-orchestration core of this repository:
the dispatcher (`run_generic_parallel_jobs.py`), the per-record transfer
state machine (`generic_transfer_orchestrator.py`) and the dual-probe audit
reconciler (`audit.py` / `get_count.py`).

Modeling conventions:
* Python dictionaries are association lists (`List (String × PyValue)`) with
  insertion-order semantics; `dict.update` replaces existing keys in place and
  appends new keys, exactly as CPython does.
* External collaborator calls (StateStore persist, alert channel, injected
  transfer/cleanup capabilities, count probes) are passed in as outcomes:
  either the call returns, or it raises with a message.  The source bodies of
  these collaborators are explicit placeholders, so the spec's collaborator
  interfaces (§6) govern their failure behavior.
* Timestamps are opaque ISO strings supplied by the caller; durations are in
  whole milliseconds (the source computes float seconds; over nonnegative
  whole-millisecond durations `int`/`round` coincide with the integer
  arithmetic used here).
-/

namespace TestELT

/-- Outcome of invoking an external call (a Python callable): it either
returns normally or raises an exception carrying a message. -/
inductive Outcome where
  | ok : Outcome
  | raises : String → Outcome
deriving DecidableEq, Repr

/-- Python values as they appear in records and parsed JSON result files:
`None`, booleans, integers, strings, dicts and lists. -/
inductive PyValue where
  | nullV : PyValue
  | boolV : Bool → PyValue
  | intV : Int → PyValue
  | strV : String → PyValue
  | dictV : List (String × PyValue) → PyValue
  | listV : List PyValue → PyValue

/-- A record is a Python dict from string keys to values (insertion-ordered). -/
abbrev Record := List (String × PyValue)

/-- Python truthiness of a value, as used by `if result.get("continue_dag_run"):`
in `summarize_results` (run_generic_parallel_jobs.py line 73). -/
def truthy : PyValue → Bool
  | PyValue.nullV => false
  | PyValue.boolV b => b
  | PyValue.intV n => !(n == 0)
  | PyValue.strV s => !(s == "")
  | PyValue.dictV l => !l.isEmpty
  | PyValue.listV l => !l.isEmpty

/-- `d.get(k)` on a Python dict: the value at `k`, if present. -/
def dictGet (r : Record) (k : String) : Option PyValue :=
  (r.find? (fun p => p.1 == k)).map (fun p => p.2)

/-- `d.get(k)` with Python's default of `None` when the key is absent. -/
def dictGetD (r : Record) (k : String) : PyValue :=
  (dictGet r k).getD PyValue.nullV

/-- `d[k] = v` on a Python dict: replace the value in place when the key
exists (keeping its position), append the pair otherwise. -/
def setKey (r : Record) (k : String) (v : PyValue) : Record :=
  if r.any (fun p => p.1 == k) then
    r.map (fun p => if p.1 == k then (k, v) else p)
  else
    r ++ [(k, v)]

/-- `framework/utils/helpers.py` lines 77-83: `record.update(details)` —
merge `details` into `record`, overwriting existing keys and appending new
ones in the iteration order of `details`. -/
def update_record_values (record : Record) (details : Record) : Record :=
  details.foldl (fun r kv => setKey r kv.1 kv.2) record

/-- Python `str()` of a value as interpolated into an f-string.  The scalar
cases follow Python exactly.  Container values are rendered opaquely: no
record id in this repository is a container (the dispatcher and the tests use
string ids), and no claim depends on that case. -/
def pyStr : PyValue → String
  | PyValue.nullV => "None"
  | PyValue.boolV b => if b then "True" else "False"
  | PyValue.intV n => toString n
  | PyValue.strV s => s
  | PyValue.dictV _ => "<dict>"
  | PyValue.listV _ => "<list>"

/-- The key `f"error{n:02d}"` used for ErrorCollection entries
(generic_transfer_orchestrator.py lines 71/77/89, audit.py lines 35/45/65):
the counter is zero-padded to two digits. -/
def errKey (n : Nat) : String :=
  if n < 10 then "error0" ++ toString n else "error" ++ toString n

/-- `framework/utils/helpers.py` lines 35-73: `format_duration` — `None`
gives the empty string, `0` gives `"0s"`, otherwise the nonzero components
among days/hours/minutes/seconds/milliseconds are concatenated.  The input is
in whole milliseconds. -/
def format_duration (durationMs : Option Nat) : String :=
  match durationMs with
  | none => ""
  | some ms =>
    if ms = 0 then "0s"
    else
      let seconds_int := ms / 1000
      let milliseconds := ms % 1000
      let days := seconds_int / 86400
      let rem1 := seconds_int % 86400
      let hours := rem1 / 3600
      let rem2 := rem1 % 3600
      let minutes := rem2 / 60
      let seconds := rem2 % 60
      let parts : List String :=
        (if days > 0 then [toString days ++ "d"] else []) ++
        (if hours > 0 then [toString hours ++ "h"] else []) ++
        (if minutes > 0 then [toString minutes ++ "m"] else []) ++
        (if seconds > 0 then [toString seconds ++ "s"] else []) ++
        (if milliseconds > 0 then [toString milliseconds ++ "ms"] else [])
      if parts.isEmpty then "0s" else String.join parts

/-! ## JobDispatcher: `run_generic_parallel_jobs.py` -/

/-- Outcome of the dispatcher reading one job's result file
(run_generic_parallel_jobs.py lines 70-72): either `open`/`json.load` raised
(file missing or malformed), or a JSON value was parsed. -/
inductive ReadOutcome where
  | raisesRead : ReadOutcome
  | parsed : PyValue → ReadOutcome

/-- Classification printed per job by `summarize_results`. -/
inductive JobStatus where
  | success : JobStatus
  | failed : JobStatus
  | crashed : JobStatus
deriving DecidableEq, Repr

/-- Loop body of `summarize_results` (run_generic_parallel_jobs.py lines
69-81) for one job: a raised `open`/`json.load` is caught and counted as
CRASHED; on a parsed dict, `result.get("continue_dag_run")` decides SUCCESS
(truthy) against FAILED (falsy or absent); on a parsed non-dict value,
`result.get` raises `AttributeError`, which the same `except` catches, so the
job is likewise counted as CRASHED. -/
def summarize_job : ReadOutcome → JobStatus
  | ReadOutcome.raisesRead => JobStatus.crashed
  | ReadOutcome.parsed v =>
    match v with
    | PyValue.dictV fields =>
      if truthy (dictGetD fields "continue_dag_run") then JobStatus.success
      else JobStatus.failed
    | _ => JobStatus.crashed

/-- One iteration of the tallying loop of `summarize_results`: SUCCESS bumps
the success counter, FAILED and CRASHED both bump the single failure
counter. -/
def summarize_step (p : Nat × Nat) (j : ReadOutcome) : Nat × Nat :=
  match summarize_job j with
  | JobStatus.success => (p.1 + 1, p.2)
  | JobStatus.failed => (p.1, p.2 + 1)
  | JobStatus.crashed => (p.1, p.2 + 1)

/-- Aggregate returned by `summarize_results`: the two tallies and the dict
`{"continue_dag_run": success > 0}`. -/
structure Summary where
  success : Nat
  fail : Nat
  continue_dag_run : Bool
deriving DecidableEq, Repr

/-- `run_generic_parallel_jobs.py` lines 67-83: `summarize_results` — walk
the jobs in order, tally successes and failures (crashes included in the
failure tally), and report `continue_dag_run = (success > 0)`. -/
def summarize_results (jobs : List ReadOutcome) : Summary :=
  let t := jobs.foldl summarize_step (0, 0)
  { success := t.1, fail := t.2, continue_dag_run := decide (0 < t.1) }

/-- Result of the launch loop of `run_jobs_in_parallel`: the indices of the
jobs whose worker process was launched, and the exception propagating out of
the loop, if any launch raised. -/
structure LaunchResult where
  launched : List Nat
  raised : Option String
deriving DecidableEq, Repr

/-- Launch loop of `run_jobs_in_parallel` (run_generic_parallel_jobs.py lines
32-60), from index `i`: each iteration launches one worker via
`subprocess.Popen`; no exception handler surrounds the loop body, so a raised
launch aborts the loop at that point and the remaining jobs are never
launched. -/
def launch_jobs : Nat → List Outcome → LaunchResult
  | _, [] => { launched := [], raised := none }
  | i, Outcome.ok :: rest =>
    let r := launch_jobs (i + 1) rest
    { launched := i :: r.launched, raised := r.raised }
  | _, Outcome.raises e :: _ => { launched := [], raised := some e }

/-- `run_generic_parallel_jobs.py` lines 30-65: `run_jobs_in_parallel` —
launch every job's worker in input order (then wait on all of them; the waits
have no modeled effect).  `launches` gives, per job, whether its
`subprocess.Popen` call returns or raises. -/
def run_jobs_in_parallel (launches : List Outcome) : LaunchResult :=
  launch_jobs 0 launches

/-- `run_generic_parallel_jobs.py` lines 112-141: `run_generic_parallel_jobs`
— set up the working area, launch all jobs, wait, then summarize.  A raised
launch propagates out (the `finally` removes the working area but re-raises),
so `summarize_results` is never reached on that path.  `reads` gives, per
job, the outcome of reading its result file after the waits. -/
def run_generic_parallel_jobs (launches : List Outcome)
    (reads : List ReadOutcome) : Except String Summary :=
  match (run_jobs_in_parallel launches).raised with
  | some e => Except.error e
  | none => Except.ok (summarize_results reads)

/-! ## TransferOrchestrator: `generic_transfer_orchestrator.py` -/

/-- Observable external calls made by the orchestrator, in program order. -/
inductive Event where
  | persistUpdate : Event
  | persistRest : Event
  | invokeTransfer : Event
  | invokeCleanup : Event
  | invokeAlert : Event
deriving DecidableEq, Repr

/-- Modelled from the spec: `update_record_details_in_drive_table` under
`framework/drive_tbl_scripts/sf_drive_tbl_scripts.py` is an explicit
placeholder ("Real Snowflake MERGE statement logic would go here") for the
StateStore persist collaborator of spec §6, whose real behavior is external
to src; per §4.3/§7 it can fail (StateStore unreachable, ConnectionError).
The call is modeled as returning or raising according to its outcome. -/
def update_record_details_in_drive_table (out : Outcome) : Except String Unit :=
  match out with
  | Outcome.ok => Except.ok ()
  | Outcome.raises e => Except.error e

/-- Modelled from the spec: `rest_record_details_in_drive_table` is imported
and called by `generic_transfer_orchestrator.py` (lines 12-15 and 114) but
has no definition anywhere under src — only this caller exists.  The spec
describes the call as the StateStore persist of the FAILED branch (§4.3
terminal FAILED, §6 `persist(record)`), which can fail like any StateStore
call. -/
def rest_record_details_in_drive_table (out : Outcome) : Except String Unit :=
  match out with
  | Outcome.ok => Except.ok ()
  | Outcome.raises e => Except.error e

/-- Modelled from the spec: `send_mail_alert` under
`framework/utils/helpers.py` is an explicit placeholder ("Real email logic
would go here") for the AlertChannel collaborator of spec §6, which can fail;
the orchestrator guards the call with its own handler (lines 117-120). -/
def send_mail_alert (out : Outcome) : Except String Unit :=
  match out with
  | Outcome.ok => Except.ok ()
  | Outcome.raises e => Except.error e

/-- Standardized outcome of one orchestrator run that returned (rather than
propagating an exception): the returned dict
`{"continue_dag_run": …, "error": …}`, the final state of the record, and
the trace of external calls made. -/
structure TransferResult where
  continue_dag_run : Bool
  error : Option (List (String × String))
  record : Record
  trace : List Event

/-- `generic_transfer_orchestrator.py` lines 80-126: the `finally` block.
If the process failed, the cleanup capability is invoked (a raised cleanup
appends a "Cleanup Error" entry after the existing entries).  Then the record
is stamped: on success with status COMPLETED, end timestamp and formatted
duration, persisted via `update_record_details_in_drive_table`; on failure
with status FAILED, end timestamp, duration and the error dict, persisted via
`rest_record_details_in_drive_table`, after which `send_mail_alert` is
attempted under a handler that only logs a raised alert.  An exception raised
by either persist call inside the `finally` propagates out of the
function. -/
def orchestrator_finalize (process_type endIso : String) (durationMs : Nat)
    (persistOut restPersistOut alertOut cleanupOut : Outcome)
    (record : Record) (process_failed : Bool)
    (error_dict : List (String × String)) (error_count : Nat)
    (trace : List Event) : Except String TransferResult :=
  let step : List (String × String) × Nat × List Event :=
    if process_failed then
      match cleanupOut with
      | Outcome.ok => (error_dict, error_count, trace ++ [Event.invokeCleanup])
      | Outcome.raises clean_e =>
        (error_dict ++ [(errKey (error_count + 1), "Cleanup Error: " ++ clean_e)],
         error_count + 1, trace ++ [Event.invokeCleanup])
    else (error_dict, error_count, trace)
  let error_dict := step.1
  let trace := step.2.2
  if process_failed = false then
    let details : Record :=
      [(process_type ++ "_status", PyValue.strV "COMPLETED"),
       (process_type ++ "_ended_at", PyValue.strV endIso),
       (process_type ++ "_duration_str",
        PyValue.strV (format_duration (some durationMs)))]
    let record := update_record_values record details
    let trace := trace ++ [Event.persistUpdate]
    match update_record_details_in_drive_table persistOut with
    | Except.error e => Except.error e
    | Except.ok _ =>
      Except.ok { continue_dag_run := true, error := none,
                  record := record, trace := trace }
  else
    let details : Record :=
      [(process_type ++ "_status", PyValue.strV "FAILED"),
       (process_type ++ "_ended_at", PyValue.strV endIso),
       (process_type ++ "_duration_str",
        PyValue.strV (format_duration (some durationMs))),
       (process_type ++ "_error",
        PyValue.dictV (error_dict.map (fun p => (p.1, PyValue.strV p.2))))]
    let record := update_record_values record details
    let trace := trace ++ [Event.persistRest]
    match rest_record_details_in_drive_table restPersistOut with
    | Except.error e => Except.error e
    | Except.ok _ =>
      let trace := trace ++ [Event.invokeAlert]
      match send_mail_alert alertOut with
      | Except.ok _ =>
        Except.ok { continue_dag_run := false, error := some error_dict,
                    record := record, trace := trace }
      | Except.error _ =>
        Except.ok { continue_dag_run := false, error := some error_dict,
                    record := record, trace := trace }

/-- `generic_transfer_orchestrator.py` lines 19-126: stamp the record RUNNING
with the start timestamp and null end fields, persist it (the INIT
persist — a raised persist is caught by the outer handler and recorded as a
"Critical Error" entry, skipping the transfer), then invoke the transfer
capability (a raised transfer is recorded as a "Transfer Error" entry), and
run the `finally` block.  `persistOut` is the outcome of calls to
`update_record_details_in_drive_table` during this run, `restPersistOut` of
`rest_record_details_in_drive_table`, `alertOut` of `send_mail_alert`;
`transferOut` and `cleanupOut` are the outcomes of the injected transfer and
cleanup capabilities. -/
def generic_transfer_orchestrator (record : Record) (process_type : String)
    (startIso endIso : String) (durationMs : Nat)
    (persistOut restPersistOut alertOut : Outcome)
    (transferOut cleanupOut : Outcome) : Except String TransferResult :=
  let details : Record :=
    [(process_type ++ "_status", PyValue.strV "RUNNING"),
     (process_type ++ "_started_at", PyValue.strV startIso),
     (process_type ++ "_ended_at", PyValue.nullV),
     (process_type ++ "_duration_str", PyValue.nullV),
     (process_type ++ "_error", PyValue.nullV)]
  let record := update_record_values record details
  let trace := [Event.persistUpdate]
  match update_record_details_in_drive_table persistOut with
  | Except.error e =>
    orchestrator_finalize process_type endIso durationMs
      persistOut restPersistOut alertOut cleanupOut
      record true [(errKey 1, "Critical Error: " ++ e)] 1 trace
  | Except.ok _ =>
    let trace := trace ++ [Event.invokeTransfer]
    match transferOut with
    | Outcome.ok =>
      orchestrator_finalize process_type endIso durationMs
        persistOut restPersistOut alertOut cleanupOut
        record false [] 0 trace
    | Outcome.raises e =>
      orchestrator_finalize process_type endIso durationMs
        persistOut restPersistOut alertOut cleanupOut
        record true [(errKey 1, "Transfer Error: " ++ e)] 1 trace

/-! ## AuditReconciler: `audit.py` and `get_count.py` -/

/-- Outcome of a count probe (`get_source_count` / `get_target_count`): both
src bodies are explicit placeholders ("Simulate getting the count") for the
CountProbe collaborator of spec §6, `probe(context, record) -> integer`,
which may fail. -/
inductive ProbeOutcome where
  | ok : Int → ProbeOutcome
  | raises : String → ProbeOutcome
deriving DecidableEq, Repr

/-- The uniform wrapper returned by `get_count`. -/
structure CountResult where
  count : Int
  continue_dag_run : Bool
  error : Option String
deriving DecidableEq, Repr

/-- `framework/orchestration/get_count.py` lines 4-22: run the given count
function; on success return its count with `continue_dag_run = True`, on a
raised exception return count `0`, `continue_dag_run = False` and the message
`"Count function <name> failed: <e>"`. -/
def get_count (probe_name : String) (probe : ProbeOutcome) : CountResult :=
  match probe with
  | ProbeOutcome.ok n => { count := n, continue_dag_run := true, error := none }
  | ProbeOutcome.raises e =>
    { count := 0, continue_dag_run := false,
      error := some ("Count function " ++ probe_name ++ " failed: " ++ e) }

/-- Python `str()` of an optional error string as interpolated by
`f"Source count error: {src_res.get('error')}"` (audit.py lines 35/45):
`None` renders as `"None"`. -/
def pyStrOfOpt : Option String → String
  | some s => s
  | none => "None"

/-- Observable external calls made by the audit reconciler, in program
order. -/
inductive AuditEvent where
  | probeSource : AuditEvent
  | probeTarget : AuditEvent
  | persistAudit : AuditEvent
deriving DecidableEq, Repr

/-- Return value and observable effects of one `audit_counts` run: the
returned dict, the record after `audit_status` was set, and the trace of
external calls. -/
structure AuditOutput where
  source_count : Int
  target_count : Int
  audit_result : String
  continue_dag_run : Bool
  error : Option (List (String × String))
  record : Record
  trace : List AuditEvent

/-- `framework/audit/audit.py` lines 8-80: `audit_counts` — run the source
probe through `get_count`, record a "Source count error" entry if it did not
continue; then run the target probe through `get_count` (the call is
unconditional, straight-line code), recording a "Target count error" entry if
it did not continue.  With any error the verdict is ERROR
(`audit_status = "ERROR"`); otherwise equal counts give MATCH
(`audit_status = "SUCCESS"`) and differing counts give MISMATCH
(`audit_status = "FAILURE"`) with one synthesized entry naming the record id
and both counts.  The record is persisted via
`update_record_details_in_drive_table` before returning on every branch
(line 71); the persist placeholder returns normally here, matching its src
body. -/
def audit_counts (record : Record) (srcProbe trgProbe : ProbeOutcome) :
    AuditOutput :=
  let src_res := get_count "get_source_count" srcProbe
  let errors1 : List (String × String) :=
    if src_res.continue_dag_run then []
    else [(errKey 1, "Source count error: " ++ pyStrOfOpt src_res.error)]
  let idx1 : Nat := if src_res.continue_dag_run then 0 else 1
  let trg_res := get_count "get_target_count" trgProbe
  let errors2 : List (String × String) :=
    if trg_res.continue_dag_run then errors1
    else errors1 ++
      [(errKey (idx1 + 1), "Target count error: " ++ pyStrOfOpt trg_res.error)]
  let idx2 : Nat := if trg_res.continue_dag_run then idx1 else idx1 + 1
  let source_count := src_res.count
  let target_count := trg_res.count
  let trace := [AuditEvent.probeSource, AuditEvent.probeTarget,
                AuditEvent.persistAudit]
  if errors2.isEmpty = false then
    { source_count := source_count, target_count := target_count,
      audit_result := "ERROR", continue_dag_run := false,
      error := some errors2,
      record := setKey record "audit_status" (PyValue.strV "ERROR"),
      trace := trace }
  else if source_count = target_count then
    { source_count := source_count, target_count := target_count,
      audit_result := "MATCH", continue_dag_run := true,
      error := none,
      record := setKey record "audit_status" (PyValue.strV "SUCCESS"),
      trace := trace }
  else
    let mismatch :=
      "Counts do not match for record " ++ pyStr (dictGetD record "id") ++
      ". Source: " ++ toString source_count ++
      ", Target: " ++ toString target_count
    { source_count := source_count, target_count := target_count,
      audit_result := "MISMATCH", continue_dag_run := false,
      error := some [(errKey (idx2 + 1), mismatch)],
      record := setKey record "audit_status" (PyValue.strV "FAILURE"),
      trace := trace }

/-! ## Helper lemmas about the Python-dict model -/

theorem string_data_of_append (p a : String) :
    (p ++ a).data = p.data ++ a.data := by
  cases p
  cases a
  rfl

theorem string_append_left_cancel {p a b : String} (h : p ++ a = p ++ b) :
    a = b := by
  have hd : (p ++ a).data = (p ++ b).data := by rw [h]
  rw [string_data_of_append, string_data_of_append] at hd
  have hab := List.append_cancel_left hd
  cases a
  cases b
  exact congrArg String.mk hab

theorem string_append_ne (p : String) {a b : String} (h : a ≠ b) :
    p ++ a ≠ p ++ b := fun he => h (string_append_left_cancel he)

theorem dictGet_cons (p : String × PyValue) (rest : Record) (k : String) :
    dictGet (p :: rest) k =
      if p.1 == k then some p.2 else dictGet rest k := by
  by_cases hp : p.1 == k <;> simp [dictGet, List.find?, hp]

theorem dictGet_map_overwrite (r : Record) (k : String) (v : PyValue)
    (h : r.any (fun p => p.1 == k)) :
    dictGet (r.map (fun p => if p.1 == k then (k, v) else p)) k = some v := by
  induction r with
  | nil => simp at h
  | cons p rest ih =>
    by_cases hp : p.1 == k
    · simp [dictGet, List.find?, hp]
    · have hrest : rest.any (fun p => p.1 == k) := by
        simp only [List.any_cons, hp, Bool.false_or] at h
        exact h
      simpa [dictGet, List.find?, hp] using ih hrest

theorem dictGet_append_new (r : Record) (k : String) (v : PyValue)
    (h : r.any (fun p => p.1 == k) = false) :
    dictGet (r ++ [(k, v)]) k = some v := by
  induction r with
  | nil => simp [dictGet, List.find?]
  | cons p rest ih =>
    have hp : (p.1 == k) = false := by
      by_contra hc
      simp only [Bool.not_eq_false] at hc
      simp [List.any_cons, hc] at h
    have hrest : rest.any (fun p => p.1 == k) = false := by
      by_contra hc
      simp only [Bool.not_eq_false] at hc
      simp [List.any_cons, hc] at h
    simpa [dictGet, List.find?, hp] using ih hrest

theorem dictGet_setKey_self (r : Record) (k : String) (v : PyValue) :
    dictGet (setKey r k v) k = some v := by
  unfold setKey
  by_cases h : r.any (fun p => p.1 == k)
  · simp only [h, if_true]
    exact dictGet_map_overwrite r k v h
  · simp only [h, if_false]
    exact dictGet_append_new r k v (Bool.not_eq_true _ ▸ h)

theorem dictGet_map_other (r : Record) {k1 k2 : String} (v : PyValue)
    (h : k1 ≠ k2) :
    dictGet (r.map (fun p => if p.1 == k2 then (k2, v) else p)) k1 =
      dictGet r k1 := by
  have hk : (k2 == k1) = false := by
    simp only [beq_eq_false_iff_ne, ne_eq]
    exact fun hc => h hc.symm
  induction r with
  | nil => rfl
  | cons p rest ih =>
    by_cases hp : p.1 == k2
    · have hp1 : p.1 = k2 := by simpa using hp
      simp [List.map_cons, hp, dictGet_cons, hp1, hk]
      simpa using ih
    · simp only [List.map_cons, hp, if_false]
      by_cases hq : p.1 == k1
      · simp [dictGet_cons, hq]
      · simpa [dictGet_cons, hq] using ih

theorem dictGet_append_other (r : Record) {k1 k2 : String} (v : PyValue)
    (h : k1 ≠ k2) : dictGet (r ++ [(k2, v)]) k1 = dictGet r k1 := by
  have hk : (k2 == k1) = false := by
    simp only [beq_eq_false_iff_ne, ne_eq]
    exact fun hc => h hc.symm
  induction r with
  | nil => simp [dictGet, List.find?, hk]
  | cons p rest ih =>
    by_cases hq : p.1 == k1
    · simp [dictGet, List.find?, hq]
    · simpa [dictGet, List.find?, hq] using ih

theorem dictGet_setKey_ne (r : Record) {k1 k2 : String} (v : PyValue)
    (h : k1 ≠ k2) : dictGet (setKey r k2 v) k1 = dictGet r k1 := by
  unfold setKey
  by_cases ha : r.any (fun p => p.1 == k2)
  · simp only [ha, if_true]
    exact dictGet_map_other r v h
  · simp only [ha, if_false]
    exact dictGet_append_other r v h

@[simp] theorem update_record_values_nil (r : Record) :
    update_record_values r [] = r := rfl

@[simp] theorem update_record_values_cons (r : Record) (k : String)
    (v : PyValue) (rest : Record) :
    update_record_values r ((k, v) :: rest) =
      update_record_values (setKey r k v) rest := rfl

theorem summarize_foldl_spec (jobs : List ReadOutcome) (s f : Nat) :
    jobs.foldl summarize_step (s, f) =
      (s + jobs.countP (fun j => decide (summarize_job j = JobStatus.success)),
       f + jobs.countP (fun j => !decide (summarize_job j = JobStatus.success))) := by
  induction jobs generalizing s f with
  | nil => simp
  | cons j rest ih =>
    cases hc : summarize_job j <;>
      simp [summarize_step, hc, List.countP_cons, ih] <;> omega

theorem summarize_success_count (jobs : List ReadOutcome) :
    (summarize_results jobs).success =
      jobs.countP (fun j => decide (summarize_job j = JobStatus.success)) := by
  show (jobs.foldl summarize_step (0, 0)).1 = _
  rw [summarize_foldl_spec]
  simp

theorem summarize_fail_count (jobs : List ReadOutcome) :
    (summarize_results jobs).fail =
      jobs.countP (fun j => !decide (summarize_job j = JobStatus.success)) := by
  show (jobs.foldl summarize_step (0, 0)).2 = _
  rw [summarize_foldl_spec]
  simp

theorem summarize_continue_eq (jobs : List ReadOutcome) :
    (summarize_results jobs).continue_dag_run =
      decide (0 < jobs.countP (fun j => decide (summarize_job j = JobStatus.success))) := by
  show decide (0 < (jobs.foldl summarize_step (0, 0)).1) = _
  rw [summarize_foldl_spec]
  simp

/-- Whether a Python value is a dict (so that `.get` is available on it). -/
def isDictV : PyValue → Bool
  | PyValue.dictV _ => true
  | _ => false

theorem summarize_job_success_iff (j : ReadOutcome) :
    summarize_job j = JobStatus.success ↔
      ∃ fields, j = ReadOutcome.parsed (PyValue.dictV fields) ∧
        truthy (dictGetD fields "continue_dag_run") = true := by
  cases j with
  | raisesRead => simp [summarize_job]
  | parsed v =>
    cases v with
    | dictV fields =>
      by_cases h : truthy (dictGetD fields "continue_dag_run") <;>
        simp [summarize_job, h]
    | nullV => simp [summarize_job]
    | boolV b => simp [summarize_job]
    | intV n => simp [summarize_job]
    | strV s => simp [summarize_job]
    | listV l => simp [summarize_job]

theorem summarize_job_crashed_iff (j : ReadOutcome) :
    summarize_job j = JobStatus.crashed ↔
      j = ReadOutcome.raisesRead ∨
        ∃ v, j = ReadOutcome.parsed v ∧ isDictV v = false := by
  cases j with
  | raisesRead => simp [summarize_job]
  | parsed v =>
    cases v with
    | dictV fields =>
      by_cases h : truthy (dictGetD fields "continue_dag_run") <;>
        simp [summarize_job, h, isDictV]
    | nullV => simp [summarize_job, isDictV]
    | boolV b => simp [summarize_job, isDictV]
    | intV n => simp [summarize_job, isDictV]
    | strV s => simp [summarize_job, isDictV]
    | listV l => simp [summarize_job, isDictV]

/-! ## Claims about the dispatcher -/

/-- C1: the aggregate continue flag of `summarize_results` is true iff at
least one job's result file was read and parsed as a dict with a truthy
`continue_dag_run` field; a job whose result file read raises is classified
as a crash; with 3 records where jobs 1 and 3 succeed and job 2 produces no
result file, the aggregate reports 2 successes and 1 failure tally entry
(the crash) with overall continue true. -/
theorem C1_continue_iff_any_success :
    (∀ jobs : List ReadOutcome,
        (summarize_results jobs).continue_dag_run = true ↔
          ∃ j ∈ jobs, ∃ fields,
            j = ReadOutcome.parsed (PyValue.dictV fields) ∧
              truthy (dictGetD fields "continue_dag_run") = true) ∧
    summarize_job ReadOutcome.raisesRead = JobStatus.crashed ∧
    summarize_results
        [ReadOutcome.parsed (PyValue.dictV [("continue_dag_run", PyValue.boolV true)]),
         ReadOutcome.raisesRead,
         ReadOutcome.parsed (PyValue.dictV [("continue_dag_run", PyValue.boolV true)])] =
      { success := 2, fail := 1, continue_dag_run := true } := by
  refine ⟨?_, rfl, rfl⟩
  intro jobs
  rw [summarize_continue_eq]
  simp only [decide_eq_true_eq, List.countP_pos_iff, decide_eq_true_eq]
  constructor
  · rintro ⟨j, hj, hs⟩
    exact ⟨j, hj, (summarize_job_success_iff j).mp hs⟩
  · rintro ⟨j, hj, hs⟩
    exact ⟨j, hj, (summarize_job_success_iff j).mpr hs⟩

/-- C10 counterexample: a result file that parses as JSON but not as a JSON
object — here the JSON array `[]` — lacks the `continue_dag_run` key, yet
`summarize_results` classifies the job as CRASHED, not FAILED, because
`result.get` raises `AttributeError` on a non-dict value and the surrounding
`except` catches it. -/
theorem C10_counterexample_nondict_json :
    summarize_job (ReadOutcome.parsed (PyValue.listV [])) ≠ JobStatus.failed ∧
    summarize_job (ReadOutcome.parsed (PyValue.listV [])) = JobStatus.crashed := by
  exact ⟨by decide, rfl⟩

/-- C10 (amended): a job whose result file parses as a JSON OBJECT lacking
the `continue_dag_run` key (or holding a falsy value) is classified FAILED;
CRASHED occurs exactly when the read raises or when the parsed value is not
an object; FAILED and CRASHED jobs are accumulated into the same single
failure tally. -/
theorem C10_failed_crashed_classification :
    (∀ fields, summarize_job (ReadOutcome.parsed (PyValue.dictV fields)) =
        (if truthy (dictGetD fields "continue_dag_run") then JobStatus.success
         else JobStatus.failed)) ∧
    (∀ j, summarize_job j = JobStatus.crashed ↔
        j = ReadOutcome.raisesRead ∨
          ∃ v, j = ReadOutcome.parsed v ∧ isDictV v = false) ∧
    (∀ jobs, (summarize_results jobs).fail =
        jobs.countP (fun j => decide (summarize_job j = JobStatus.failed)) +
        jobs.countP (fun j => decide (summarize_job j = JobStatus.crashed))) := by
  refine ⟨fun fields => rfl, summarize_job_crashed_iff, fun jobs => ?_⟩
  rw [summarize_fail_count]
  induction jobs with
  | nil => simp
  | cons j rest ih =>
    cases hc : summarize_job j <;> simp [List.countP_cons, hc, ih] <;> omega

/-- C9 counterexample: with three jobs whose second launch raises (the worker
process cannot be spawned), only job 0 is ever launched — the fan-out of the
remaining sibling job is aborted, the exception propagates out of
`run_generic_parallel_jobs`, and no crash is recorded for the faulted job
(the summarizer is never invoked). -/
theorem C9_counterexample_launch_fault_aborts :
    (run_jobs_in_parallel
        [Outcome.ok, Outcome.raises "cannot spawn", Outcome.ok]).launched = [0] ∧
    (2 : Nat) ∉ (run_jobs_in_parallel
        [Outcome.ok, Outcome.raises "cannot spawn", Outcome.ok]).launched ∧
    run_generic_parallel_jobs
        [Outcome.ok, Outcome.raises "cannot spawn", Outcome.ok] [] =
      Except.error "cannot spawn" := by
  exact ⟨rfl, by decide, rfl⟩

theorem launch_jobs_fault (i n : Nat) (e : String) (rest : List Outcome) :
    launch_jobs i (List.replicate n Outcome.ok ++ Outcome.raises e :: rest) =
      { launched := (List.range n).map (fun j => i + j), raised := some e } := by
  induction n generalizing i with
  | zero => simp [launch_jobs]
  | succ m ih =>
    rw [List.replicate_succ, List.cons_append]
    have hstep : launch_jobs i
        (Outcome.ok :: (List.replicate m Outcome.ok ++ Outcome.raises e :: rest)) =
        { launched := i :: (launch_jobs (i + 1)
            (List.replicate m Outcome.ok ++ Outcome.raises e :: rest)).launched,
          raised := (launch_jobs (i + 1)
            (List.replicate m Outcome.ok ++ Outcome.raises e :: rest)).raised } := rfl
    rw [hstep, ih (i + 1)]
    have hmap : i :: (List.range m).map (fun j => (i + 1) + j) =
        (List.range (m + 1)).map (fun j => i + j) := by
      rw [List.range_succ_eq_map, List.map_cons, List.map_map]
      refine congrArg₂ _ (by omega) (List.map_congr_left ?_)
      intro a _
      simp [Function.comp]
      omega
    simp only [LaunchResult.mk.injEq]
    exact ⟨hmap, trivial⟩

/-- C9 (amended): a launch-time fault for one job ABORTS the fan-out — the
jobs before the fault are launched, the faulted job and every sibling after
it are not, the exception propagates out of the dispatcher, and the faulted
job is not recorded as a crash (the summarizer is never reached). -/
theorem C9_launch_fault_aborts_fanout (n : Nat) (e : String)
    (rest : List Outcome) (reads : List ReadOutcome) :
    run_jobs_in_parallel (List.replicate n Outcome.ok ++ Outcome.raises e :: rest) =
      { launched := List.range n, raised := some e } ∧
    run_generic_parallel_jobs (List.replicate n Outcome.ok ++ Outcome.raises e :: rest)
        reads = Except.error e := by
  have h : run_jobs_in_parallel (List.replicate n Outcome.ok ++ Outcome.raises e :: rest) =
      { launched := List.range n, raised := some e } := by
    show launch_jobs 0 _ = _
    rw [launch_jobs_fault]
    simp
  refine ⟨h, ?_⟩
  unfold run_generic_parallel_jobs
  rw [h]

/-! ## Claims about the transfer orchestrator -/

/-- Trace of external calls of an orchestrator run that returned; empty for a
run that propagated an exception. -/
def runTrace : Except String TransferResult → List Event
  | Except.ok r => r.trace
  | Except.error _ => []

/-- ErrorCollection of an orchestrator run that returned, as the ordered list
of its entries; empty when the run returned no errors or propagated an
exception. -/
def runErrors : Except String TransferResult → List (String × String)
  | Except.ok r => (r.error).getD []
  | Except.error _ => []

theorem completed_record_gets (rec2 : Record) (pt endIso dstr : String) :
    dictGet (update_record_values rec2
        [(pt ++ "_status", PyValue.strV "COMPLETED"),
         (pt ++ "_ended_at", PyValue.strV endIso),
         (pt ++ "_duration_str", PyValue.strV dstr)]) (pt ++ "_status") =
      some (PyValue.strV "COMPLETED") ∧
    dictGet (update_record_values rec2
        [(pt ++ "_status", PyValue.strV "COMPLETED"),
         (pt ++ "_ended_at", PyValue.strV endIso),
         (pt ++ "_duration_str", PyValue.strV dstr)]) (pt ++ "_ended_at") =
      some (PyValue.strV endIso) ∧
    dictGet (update_record_values rec2
        [(pt ++ "_status", PyValue.strV "COMPLETED"),
         (pt ++ "_ended_at", PyValue.strV endIso),
         (pt ++ "_duration_str", PyValue.strV dstr)]) (pt ++ "_duration_str") =
      some (PyValue.strV dstr) := by
  have hSE : pt ++ "_status" ≠ pt ++ "_ended_at" := string_append_ne pt (by decide)
  have hSD : pt ++ "_status" ≠ pt ++ "_duration_str" := string_append_ne pt (by decide)
  have hES : pt ++ "_ended_at" ≠ pt ++ "_status" := string_append_ne pt (by decide)
  have hED : pt ++ "_ended_at" ≠ pt ++ "_duration_str" := string_append_ne pt (by decide)
  simp only [update_record_values_cons, update_record_values_nil]
  refine ⟨?_, ?_, ?_⟩
  · rw [dictGet_setKey_ne _ _ hSD, dictGet_setKey_ne _ _ hSE, dictGet_setKey_self]
  · rw [dictGet_setKey_ne _ _ hED, dictGet_setKey_self]
  · rw [dictGet_setKey_self]

theorem failed_record_gets (rec2 : Record) (pt endIso dstr : String)
    (errv : PyValue) :
    dictGet (update_record_values rec2
        [(pt ++ "_status", PyValue.strV "FAILED"),
         (pt ++ "_ended_at", PyValue.strV endIso),
         (pt ++ "_duration_str", PyValue.strV dstr),
         (pt ++ "_error", errv)]) (pt ++ "_status") =
      some (PyValue.strV "FAILED") ∧
    dictGet (update_record_values rec2
        [(pt ++ "_status", PyValue.strV "FAILED"),
         (pt ++ "_ended_at", PyValue.strV endIso),
         (pt ++ "_duration_str", PyValue.strV dstr),
         (pt ++ "_error", errv)]) (pt ++ "_ended_at") =
      some (PyValue.strV endIso) ∧
    dictGet (update_record_values rec2
        [(pt ++ "_status", PyValue.strV "FAILED"),
         (pt ++ "_ended_at", PyValue.strV endIso),
         (pt ++ "_duration_str", PyValue.strV dstr),
         (pt ++ "_error", errv)]) (pt ++ "_duration_str") =
      some (PyValue.strV dstr) ∧
    dictGet (update_record_values rec2
        [(pt ++ "_status", PyValue.strV "FAILED"),
         (pt ++ "_ended_at", PyValue.strV endIso),
         (pt ++ "_duration_str", PyValue.strV dstr),
         (pt ++ "_error", errv)]) (pt ++ "_error") =
      some errv := by
  have hSE : pt ++ "_status" ≠ pt ++ "_ended_at" := string_append_ne pt (by decide)
  have hSD : pt ++ "_status" ≠ pt ++ "_duration_str" := string_append_ne pt (by decide)
  have hSX : pt ++ "_status" ≠ pt ++ "_error" := string_append_ne pt (by decide)
  have hES : pt ++ "_ended_at" ≠ pt ++ "_status" := string_append_ne pt (by decide)
  have hED : pt ++ "_ended_at" ≠ pt ++ "_duration_str" := string_append_ne pt (by decide)
  have hEX : pt ++ "_ended_at" ≠ pt ++ "_error" := string_append_ne pt (by decide)
  have hDX : pt ++ "_duration_str" ≠ pt ++ "_error" := string_append_ne pt (by decide)
  simp only [update_record_values_cons, update_record_values_nil]
  refine ⟨?_, ?_, ?_, ?_⟩
  · rw [dictGet_setKey_ne _ _ hSX, dictGet_setKey_ne _ _ hSD,
      dictGet_setKey_ne _ _ hSE, dictGet_setKey_self]
  · rw [dictGet_setKey_ne _ _ hEX, dictGet_setKey_ne _ _ hED, dictGet_setKey_self]
  · rw [dictGet_setKey_ne _ _ hDX, dictGet_setKey_self]
  · rw [dictGet_setKey_self]

/-- C2: when the transfer capability raises and the cleanup capability also
raises, the orchestrator returns continue=false with exactly two error
entries in order — `error01` the transfer error, `error02` the cleanup
error; the cleanup error never replaces or suppresses the transfer error. -/
theorem C2_transfer_then_cleanup_errors (record : Record) (pt s e : String)
    (d : Nat) (alertOut : Outcome) (t c : String) :
    ∃ r, generic_transfer_orchestrator record pt s e d
        Outcome.ok Outcome.ok alertOut (Outcome.raises t) (Outcome.raises c) =
      Except.ok r ∧
    r.continue_dag_run = false ∧
    r.error = some [(errKey 1, "Transfer Error: " ++ t),
                    (errKey 2, "Cleanup Error: " ++ c)] := by
  cases alertOut <;> exact ⟨_, rfl, rfl, rfl⟩

/-- C5: when the INIT persistence succeeds and the transfer capability
returns normally, the orchestrator returns continue=true and error=null,
stamps the record COMPLETED with the end timestamp and the formatted
duration, and the alert channel is never invoked. -/
theorem C5_transfer_success_completed (record : Record) (pt s e : String)
    (d : Nat) (restOut alertOut cleanupOut : Outcome) :
    ∃ rec2, generic_transfer_orchestrator record pt s e d
        Outcome.ok restOut alertOut Outcome.ok cleanupOut =
      Except.ok ({ continue_dag_run := true, error := none, record := rec2,
                   trace := [Event.persistUpdate, Event.invokeTransfer,
                             Event.persistUpdate] }) ∧
    dictGet rec2 (pt ++ "_status") = some (PyValue.strV "COMPLETED") ∧
    dictGet rec2 (pt ++ "_ended_at") = some (PyValue.strV e) ∧
    dictGet rec2 (pt ++ "_duration_str") =
      some (PyValue.strV (format_duration (some d))) ∧
    Event.invokeAlert ∉ [Event.persistUpdate, Event.invokeTransfer,
                         Event.persistUpdate] ∧
    Event.invokeCleanup ∉ [Event.persistUpdate, Event.invokeTransfer,
                           Event.persistUpdate] := by
  obtain ⟨h1, h2, h3⟩ := completed_record_gets
    (update_record_values record
      [(pt ++ "_status", PyValue.strV "RUNNING"),
       (pt ++ "_started_at", PyValue.strV s),
       (pt ++ "_ended_at", PyValue.nullV),
       (pt ++ "_duration_str", PyValue.nullV),
       (pt ++ "_error", PyValue.nullV)]) pt e (format_duration (some d))
  exact ⟨_, rfl, h1, h2, h3, by decide, by decide⟩

/-- C7 counterexample: on a fault during INIT (the StateStore persist of the
RUNNING stamp raises), the orchestrator DOES invoke the cleanup capability —
the `finally` block runs cleanup whenever `process_failed` is set, which
includes the Critical-Error path — refuting the claim that the CLEANUP
sub-phase is unreachable from an INIT fault. -/
theorem C7_counterexample_cleanup_after_init_fault :
    Event.invokeCleanup ∈ runTrace (generic_transfer_orchestrator []
      "src_to_stg" "s" "e" 0 (Outcome.raises "statestore unreachable")
      Outcome.ok Outcome.ok Outcome.ok Outcome.ok) ∧
    Event.invokeTransfer ∉ runTrace (generic_transfer_orchestrator []
      "src_to_stg" "s" "e" 0 (Outcome.raises "statestore unreachable")
      Outcome.ok Outcome.ok Outcome.ok Outcome.ok) := by
  have h : runTrace (generic_transfer_orchestrator []
      "src_to_stg" "s" "e" 0 (Outcome.raises "statestore unreachable")
      Outcome.ok Outcome.ok Outcome.ok Outcome.ok) =
      [Event.persistUpdate, Event.invokeCleanup, Event.persistRest,
       Event.invokeAlert] := rfl
  rw [h]
  exact ⟨by decide, by decide⟩

/-- C7 (amended): a fault during the INIT persistence escalates directly to
FAILED with a "Critical Error"-tagged first entry and the transfer attempt
is skipped entirely, but the cleanup capability IS invoked — the CLEANUP
sub-phase is reachable both from a transfer failure and from an INIT
fault. -/
theorem C7_init_fault_escalates (record : Record) (pt s e : String) (d : Nat)
    (alertOut transferOut cleanupOut : Outcome) (p : String) :
    ∃ rec2 restErr, generic_transfer_orchestrator record pt s e d
        (Outcome.raises p) Outcome.ok alertOut transferOut cleanupOut =
      Except.ok ({ continue_dag_run := false,
                   error := some ((errKey 1, "Critical Error: " ++ p) :: restErr),
                   record := rec2,
                   trace := [Event.persistUpdate, Event.invokeCleanup,
                             Event.persistRest, Event.invokeAlert] }) ∧
    Event.invokeTransfer ∉ [Event.persistUpdate, Event.invokeCleanup,
                            Event.persistRest, Event.invokeAlert] ∧
    Event.invokeCleanup ∈ [Event.persistUpdate, Event.invokeCleanup,
                           Event.persistRest, Event.invokeAlert] ∧
    dictGet rec2 (pt ++ "_status") = some (PyValue.strV "FAILED") := by
  cases cleanupOut with
  | ok =>
    obtain ⟨hh, _, _, _⟩ := failed_record_gets
      (update_record_values record
        [(pt ++ "_status", PyValue.strV "RUNNING"),
         (pt ++ "_started_at", PyValue.strV s),
         (pt ++ "_ended_at", PyValue.nullV),
         (pt ++ "_duration_str", PyValue.nullV),
         (pt ++ "_error", PyValue.nullV)]) pt e (format_duration (some d))
      (PyValue.dictV ([(errKey 1, "Critical Error: " ++ p)].map
        (fun q => (q.1, PyValue.strV q.2))))
    cases alertOut <;> exact ⟨_, [], rfl, by decide, by decide, hh⟩
  | raises c =>
    obtain ⟨hh, _, _, _⟩ := failed_record_gets
      (update_record_values record
        [(pt ++ "_status", PyValue.strV "RUNNING"),
         (pt ++ "_started_at", PyValue.strV s),
         (pt ++ "_ended_at", PyValue.nullV),
         (pt ++ "_duration_str", PyValue.nullV),
         (pt ++ "_error", PyValue.nullV)]) pt e (format_duration (some d))
      (PyValue.dictV (([(errKey 1, "Critical Error: " ++ p)] ++
        [(errKey 2, "Cleanup Error: " ++ c)]).map
        (fun q => (q.1, PyValue.strV q.2))))
    cases alertOut <;>
      exact ⟨_, [(errKey 2, "Cleanup Error: " ++ c)], rfl,
        by decide, by decide, hh⟩

/-- C6: every failed run (terminal FAILED) stamps the record with the end
timestamp, duration and the full ErrorCollection, persists it via the
StateStore (the `persistRest` call), and then attempts the alert exactly
once, after the persist; a raised alert send is logged only — the returned
outcome, the errors and the whole result are identical to a run whose alert
send succeeds. -/
theorem C6_failed_run_persists_then_alerts (record : Record) (pt s e : String)
    (d : Nat) (persistOut transferOut cleanupOut alertOut : Outcome)
    (hfail : persistOut ≠ Outcome.ok ∨ transferOut ≠ Outcome.ok) :
    ∃ rec2 ed pre,
      generic_transfer_orchestrator record pt s e d persistOut Outcome.ok
          alertOut transferOut cleanupOut =
        Except.ok ({ continue_dag_run := false, error := some ed, record := rec2,
                     trace := pre ++ [Event.persistRest, Event.invokeAlert] }) ∧
      (pre ++ [Event.persistRest, Event.invokeAlert]).count Event.invokeAlert = 1 ∧
      dictGet rec2 (pt ++ "_status") = some (PyValue.strV "FAILED") ∧
      dictGet rec2 (pt ++ "_ended_at") = some (PyValue.strV e) ∧
      dictGet rec2 (pt ++ "_duration_str") =
        some (PyValue.strV (format_duration (some d))) ∧
      dictGet rec2 (pt ++ "_error") =
        some (PyValue.dictV (ed.map (fun q => (q.1, PyValue.strV q.2)))) ∧
      generic_transfer_orchestrator record pt s e d persistOut Outcome.ok
          Outcome.ok transferOut cleanupOut =
        Except.ok ({ continue_dag_run := false, error := some ed, record := rec2,
                     trace := pre ++ [Event.persistRest, Event.invokeAlert] }) := by
  cases persistOut with
  | ok =>
    cases transferOut with
    | ok => rcases hfail with h | h <;> exact absurd rfl h
    | raises t =>
      cases cleanupOut with
      | ok =>
        obtain ⟨hS, hE, hD, hX⟩ := failed_record_gets
          (update_record_values record
            [(pt ++ "_status", PyValue.strV "RUNNING"),
             (pt ++ "_started_at", PyValue.strV s),
             (pt ++ "_ended_at", PyValue.nullV),
             (pt ++ "_duration_str", PyValue.nullV),
             (pt ++ "_error", PyValue.nullV)]) pt e (format_duration (some d))
          (PyValue.dictV ([(errKey 1, "Transfer Error: " ++ t)].map
            (fun q => (q.1, PyValue.strV q.2))))
        cases alertOut <;>
          exact ⟨_, _, [Event.persistUpdate, Event.invokeTransfer,
            Event.invokeCleanup], rfl, by decide, hS, hE, hD, hX, rfl⟩
      | raises c =>
        obtain ⟨hS, hE, hD, hX⟩ := failed_record_gets
          (update_record_values record
            [(pt ++ "_status", PyValue.strV "RUNNING"),
             (pt ++ "_started_at", PyValue.strV s),
             (pt ++ "_ended_at", PyValue.nullV),
             (pt ++ "_duration_str", PyValue.nullV),
             (pt ++ "_error", PyValue.nullV)]) pt e (format_duration (some d))
          (PyValue.dictV (([(errKey 1, "Transfer Error: " ++ t)] ++
            [(errKey (1 + 1), "Cleanup Error: " ++ c)]).map
            (fun q => (q.1, PyValue.strV q.2))))
        cases alertOut <;>
          exact ⟨_, _, [Event.persistUpdate, Event.invokeTransfer,
            Event.invokeCleanup], rfl, by decide, hS, hE, hD, hX, rfl⟩
  | raises p =>
    cases cleanupOut with
    | ok =>
      obtain ⟨hS, hE, hD, hX⟩ := failed_record_gets
        (update_record_values record
          [(pt ++ "_status", PyValue.strV "RUNNING"),
           (pt ++ "_started_at", PyValue.strV s),
           (pt ++ "_ended_at", PyValue.nullV),
           (pt ++ "_duration_str", PyValue.nullV),
           (pt ++ "_error", PyValue.nullV)]) pt e (format_duration (some d))
        (PyValue.dictV ([(errKey 1, "Critical Error: " ++ p)].map
          (fun q => (q.1, PyValue.strV q.2))))
      cases alertOut <;>
        exact ⟨_, _, [Event.persistUpdate, Event.invokeCleanup], rfl,
          by decide, hS, hE, hD, hX, rfl⟩
    | raises c =>
      obtain ⟨hS, hE, hD, hX⟩ := failed_record_gets
        (update_record_values record
          [(pt ++ "_status", PyValue.strV "RUNNING"),
           (pt ++ "_started_at", PyValue.strV s),
           (pt ++ "_ended_at", PyValue.nullV),
           (pt ++ "_duration_str", PyValue.nullV),
           (pt ++ "_error", PyValue.nullV)]) pt e (format_duration (some d))
        (PyValue.dictV (([(errKey 1, "Critical Error: " ++ p)] ++
          [(errKey (1 + 1), "Cleanup Error: " ++ c)]).map
          (fun q => (q.1, PyValue.strV q.2))))
      cases alertOut <;>
        exact ⟨_, _, [Event.persistUpdate, Event.invokeCleanup], rfl,
          by decide, hS, hE, hD, hX, rfl⟩

/-- C6 witness: a concrete failed run — transfer raises "boom", cleanup
succeeds, the alert send raises "smtp down" — discharging the failure
hypothesis of the theorem at that input. -/
theorem C6_failed_run_witness :
    ∃ rec2 ed pre,
      generic_transfer_orchestrator [] "p" "s" "e" 0 Outcome.ok Outcome.ok
          (Outcome.raises "smtp down") (Outcome.raises "boom") Outcome.ok =
        Except.ok ({ continue_dag_run := false, error := some ed, record := rec2,
                     trace := pre ++ [Event.persistRest, Event.invokeAlert] }) ∧
      (pre ++ [Event.persistRest, Event.invokeAlert]).count Event.invokeAlert = 1 ∧
      dictGet rec2 ("p" ++ "_status") = some (PyValue.strV "FAILED") ∧
      dictGet rec2 ("p" ++ "_ended_at") = some (PyValue.strV "e") ∧
      dictGet rec2 ("p" ++ "_duration_str") =
        some (PyValue.strV (format_duration (some 0))) ∧
      dictGet rec2 ("p" ++ "_error") =
        some (PyValue.dictV (ed.map (fun q => (q.1, PyValue.strV q.2)))) ∧
      generic_transfer_orchestrator [] "p" "s" "e" 0 Outcome.ok Outcome.ok
          Outcome.ok (Outcome.raises "boom") Outcome.ok =
        Except.ok ({ continue_dag_run := false, error := some ed, record := rec2,
                     trace := pre ++ [Event.persistRest, Event.invokeAlert] }) :=
  C6_failed_run_persists_then_alerts [] "p" "s" "e" 0 Outcome.ok
    (Outcome.raises "boom") Outcome.ok (Outcome.raises "smtp down")
    (Or.inr (by decide))

/-- Keys of an ErrorCollection, in insertion (discovery) order, are exactly
`error01, error02, …` — strictly sequential with no gaps. -/
def seqKeys (errs : List (String × String)) : Prop :=
  errs.map Prod.fst = (List.range errs.length).map (fun i => errKey (i + 1))

/-- C8: every ErrorCollection produced by `generic_transfer_orchestrator`
(over all combinations of collaborator outcomes) and by `audit_counts` (over
all probe outcomes) has keys exactly `error01, error02, …`, strictly
sequential with no gaps, in the chronological order the errors were
appended. -/
theorem C8_error_keys_sequential :
    (∀ (record : Record) (pt s e : String) (d : Nat)
        (persistOut restOut alertOut transferOut cleanupOut : Outcome),
      seqKeys (runErrors (generic_transfer_orchestrator record pt s e d
        persistOut restOut alertOut transferOut cleanupOut))) ∧
    (∀ (record : Record) (src trg : ProbeOutcome),
      seqKeys ((audit_counts record src trg).error.getD [])) := by
  constructor
  · intro record pt s e d persistOut restOut alertOut transferOut cleanupOut
    cases persistOut <;> cases restOut <;> cases alertOut <;>
      cases transferOut <;> cases cleanupOut <;> exact rfl
  · intro record src trg
    cases src with
    | raises es =>
      cases trg with
      | raises et => exact rfl
      | ok n => exact rfl
    | ok m =>
      cases trg with
      | raises et => exact rfl
      | ok n =>
        by_cases h : m = n
        · have hred : audit_counts record (ProbeOutcome.ok m)
              (ProbeOutcome.ok n) =
              { source_count := m, target_count := n,
                audit_result := "MATCH", continue_dag_run := true,
                error := none,
                record := setKey record "audit_status" (PyValue.strV "SUCCESS"),
                trace := [AuditEvent.probeSource, AuditEvent.probeTarget,
                          AuditEvent.persistAudit] } := by
            show (if m = n then _ else _) = _
            rw [if_pos h]
            rfl
          rw [hred]
          exact rfl
        · have hred : audit_counts record (ProbeOutcome.ok m)
              (ProbeOutcome.ok n) =
              { source_count := m, target_count := n,
                audit_result := "MISMATCH", continue_dag_run := false,
                error := some [(errKey 1,
                  "Counts do not match for record " ++
                  pyStr (dictGetD record "id") ++ ". Source: " ++ toString m ++
                  ", Target: " ++ toString n)],
                record := setKey record "audit_status" (PyValue.strV "FAILURE"),
                trace := [AuditEvent.probeSource, AuditEvent.probeTarget,
                          AuditEvent.persistAudit] } := by
            show (if m = n then _ else _) = _
            rw [if_neg h]
            rfl
          rw [hred]
          exact rfl

/-! ## Claims about the audit reconciler -/

theorem audit_ok_ok (record : Record) (m n : Int) :
    audit_counts record (ProbeOutcome.ok m) (ProbeOutcome.ok n) =
      if m = n then
        { source_count := m, target_count := n, audit_result := "MATCH",
          continue_dag_run := true, error := none,
          record := setKey record "audit_status" (PyValue.strV "SUCCESS"),
          trace := [AuditEvent.probeSource, AuditEvent.probeTarget,
                    AuditEvent.persistAudit] }
      else
        { source_count := m, target_count := n, audit_result := "MISMATCH",
          continue_dag_run := false,
          error := some [(errKey 1,
            "Counts do not match for record " ++ pyStr (dictGetD record "id") ++
            ". Source: " ++ toString m ++ ", Target: " ++ toString n)],
          record := setKey record "audit_status" (PyValue.strV "FAILURE"),
          trace := [AuditEvent.probeSource, AuditEvent.probeTarget,
                    AuditEvent.persistAudit] } := rfl

theorem audit_counts_trace (record : Record) (src trg : ProbeOutcome) :
    (audit_counts record src trg).trace =
      [AuditEvent.probeSource, AuditEvent.probeTarget,
       AuditEvent.persistAudit] := by
  cases src with
  | raises es =>
    cases trg with
    | raises et => rfl
    | ok n => rfl
  | ok m =>
    cases trg with
    | raises et => rfl
    | ok n =>
      rw [audit_ok_ok]
      by_cases h : m = n
      · rw [if_pos h]
      · rw [if_neg h]

/-- C3: `audit_counts` invokes the source probe and the target probe both
unconditionally — its call trace is `[probeSource, probeTarget, persist]` for
every combination of probe outcomes, so a source-probe failure never prevents
the target probe from running — and when exactly the source probe raises the
result is audit_result=ERROR, continue=false, with exactly one error entry
naming "Source count error". -/
theorem C3_both_probes_unconditional (record : Record) (e : String) (n : Int) :
    (∀ (rec2 : Record) (src trg : ProbeOutcome),
        (audit_counts rec2 src trg).trace =
          [AuditEvent.probeSource, AuditEvent.probeTarget,
           AuditEvent.persistAudit]) ∧
    (audit_counts record (ProbeOutcome.raises e) (ProbeOutcome.ok n)).audit_result
      = "ERROR" ∧
    (audit_counts record (ProbeOutcome.raises e) (ProbeOutcome.ok n)).continue_dag_run
      = false ∧
    (audit_counts record (ProbeOutcome.raises e) (ProbeOutcome.ok n)).error =
      some [(errKey 1,
        "Source count error: Count function get_source_count failed: " ++ e)] := by
  exact ⟨fun rec2 src trg => audit_counts_trace rec2 src trg, rfl, rfl, rfl⟩

/-- C4: with both probes succeeding, equal counts give MATCH with
continue=true and error=null and `audit_status = SUCCESS`; differing counts
give MISMATCH with continue=false, exactly one synthesized error entry
embedding the record id and both counts, and `audit_status = FAILURE`; the
`audit_status` value follows the verdict with ERROR taking precedence
(any failed probe forces ERROR), and the record is persisted (the trailing
`persist` call) before returning on every outcome branch. -/
theorem C4_audit_verdicts (record : Record) (m n : Int) (hmn : m ≠ n) :
    audit_counts record (ProbeOutcome.ok n) (ProbeOutcome.ok n) =
      { source_count := n, target_count := n, audit_result := "MATCH",
        continue_dag_run := true, error := none,
        record := setKey record "audit_status" (PyValue.strV "SUCCESS"),
        trace := [AuditEvent.probeSource, AuditEvent.probeTarget,
                  AuditEvent.persistAudit] } ∧
    audit_counts record (ProbeOutcome.ok m) (ProbeOutcome.ok n) =
      { source_count := m, target_count := n, audit_result := "MISMATCH",
        continue_dag_run := false,
        error := some [(errKey 1,
          "Counts do not match for record " ++ pyStr (dictGetD record "id") ++
          ". Source: " ++ toString m ++ ", Target: " ++ toString n)],
        record := setKey record "audit_status" (PyValue.strV "FAILURE"),
        trace := [AuditEvent.probeSource, AuditEvent.probeTarget,
                  AuditEvent.persistAudit] } ∧
    (∀ (es : String) (trg : ProbeOutcome),
      (audit_counts record (ProbeOutcome.raises es) trg).audit_result = "ERROR") ∧
    (∀ (es : String) (src : ProbeOutcome),
      (audit_counts record src (ProbeOutcome.raises es)).audit_result = "ERROR") ∧
    (∀ src trg,
      ((audit_counts record src trg).audit_result = "ERROR" →
        dictGet (audit_counts record src trg).record "audit_status" =
          some (PyValue.strV "ERROR")) ∧
      ((audit_counts record src trg).audit_result = "MATCH" →
        dictGet (audit_counts record src trg).record "audit_status" =
          some (PyValue.strV "SUCCESS")) ∧
      ((audit_counts record src trg).audit_result = "MISMATCH" →
        dictGet (audit_counts record src trg).record "audit_status" =
          some (PyValue.strV "FAILURE"))) ∧
    (∀ src trg, (audit_counts record src trg).trace.getLast? =
      some AuditEvent.persistAudit) := by
  have hEM : ("ERROR" : String) ≠ "MATCH" := by decide
  have hEX : ("ERROR" : String) ≠ "MISMATCH" := by decide
  have hME : ("MATCH" : String) ≠ "ERROR" := by decide
  have hMX : ("MATCH" : String) ≠ "MISMATCH" := by decide
  have hXE : ("MISMATCH" : String) ≠ "ERROR" := by decide
  have hXM : ("MISMATCH" : String) ≠ "MATCH" := by decide
  refine ⟨?_, ?_, ?_, ?_, ?_, ?_⟩
  · rw [audit_ok_ok, if_pos rfl]
  · rw [audit_ok_ok, if_neg hmn]
  · intro es trg
    cases trg with
    | raises et => rfl
    | ok k => rfl
  · intro es src
    cases src with
    | raises et => rfl
    | ok k => rfl
  · intro src trg
    cases src with
    | raises es =>
      cases trg with
      | raises et =>
        exact ⟨fun _ => dictGet_setKey_self record _ _,
          fun hc => absurd hc hEM, fun hc => absurd hc hEX⟩
      | ok k =>
        exact ⟨fun _ => dictGet_setKey_self record _ _,
          fun hc => absurd hc hEM, fun hc => absurd hc hEX⟩
    | ok a =>
      cases trg with
      | raises et =>
        exact ⟨fun _ => dictGet_setKey_self record _ _,
          fun hc => absurd hc hEM, fun hc => absurd hc hEX⟩
      | ok b =>
        rw [audit_ok_ok]
        by_cases h : a = b
        · rw [if_pos h]
          exact ⟨fun hc => absurd hc hME,
            fun _ => dictGet_setKey_self record _ _,
            fun hc => absurd hc hMX⟩
        · rw [if_neg h]
          exact ⟨fun hc => absurd hc hXE,
            fun hc => absurd hc hXM,
            fun _ => dictGet_setKey_self record _ _⟩
  · intro src trg
    rw [audit_counts_trace]
    rfl

/-- C4 witness: the spec's own example — source 100, target 80, both probes
succeeding, record id "r1" — discharging the disequality hypothesis of the
theorem at that input. -/
theorem C4_audit_verdicts_witness :
    (audit_counts [("id", PyValue.strV "r1")]
        (ProbeOutcome.ok 100) (ProbeOutcome.ok 80)).audit_result = "MISMATCH" ∧
    (audit_counts [("id", PyValue.strV "r1")]
        (ProbeOutcome.ok 100) (ProbeOutcome.ok 80)).error =
      some [("error01",
        "Counts do not match for record r1. Source: 100, Target: 80")] := by
  have h := C4_audit_verdicts [("id", PyValue.strV "r1")] 100 80 (by decide)
  rw [h.2.1]
  exact ⟨rfl, rfl⟩

end TestELT
